import Mathlib

/-!
Shallow embedding of `src/main.py` (App_flotacion): a Streamlit page that
loads a serialized regression model with `joblib.load` under
`@st.cache_resource`, collects three slider inputs, builds a one-row
pandas DataFrame and renders the model's prediction.

Numeric slider values and model outputs are modelled as exact rationals.
Python exceptions are modelled by `PyExc`; a computation that may raise is
an `Except PyExc` value.  Streamlit render calls (`st.error`, `st.warning`,
`st.success`, `st.subheader`, `st.info`) are modelled as an emitted list of
`UIEvent`s.  The external model object is an opaque function from the input
DataFrame to either a raised exception or a list of output values, exactly
the interface `model.predict` exposes to the script.
-/

set_option autoImplicit false

namespace Flotacion

/-- A Python exception: either `FileNotFoundError` (the one exception class
`load_model` catches by name) or any other exception, each carrying its
`str(e)` message. -/
inductive PyExc where
  | fileNotFound (msg : String)
  | exc (msg : String)
  deriving DecidableEq, Repr

/-- The `str(e)` text of an exception, as interpolated by the f-strings in
`main.py`. -/
def excMsg : PyExc → String
  | PyExc.fileNotFound m => m
  | PyExc.exc m => m

/-- One Streamlit render call made by the script. -/
inductive UIEvent where
  | uiError (msg : String)
  | warning (msg : String)
  | success (msg : String)
  | subheader (msg : String)
  | info (msg : String)
  deriving DecidableEq, Repr

/-- A single-row pandas DataFrame as built at `main.py:93-96`: column labels
plus rows of rational values. -/
structure DFrame where
  columns : List String
  rows : List (List ℚ)
  deriving DecidableEq, Repr

/-- The deserialized model object: its `predict` entry point maps the input
DataFrame to a raised exception or a sequence of outputs. -/
def Model : Type := DFrame → Except PyExc (List ℚ)

/-- What the filesystem holds at a path: a well-formed model artifact, or
bytes whose deserialization raises (message of the raised exception). -/
inductive Artifact where
  | good (m : Model)
  | corrupt (msg : String)

/-- The filesystem, mapping each path to its artifact when the file exists. -/
def FS : Type := String → Option Artifact

/-- `joblib.load(model_path)` at `main.py:21`: raises `FileNotFoundError`
when the file is missing, raises the deserialization error when the bytes
are corrupt, and returns the model otherwise. -/
def joblib_load (fs : FS) (path : String) : Except PyExc Model :=
  match fs path with
  | none => Except.error (PyExc.fileNotFound ("No such file or directory: " ++ path))
  | some (Artifact.good m) => Except.ok m
  | some (Artifact.corrupt msg) => Except.error (PyExc.exc msg)

/-- The `st.error` text rendered by `load_model` when the file is missing
(`main.py:24`). -/
def notFoundMsg (path : String) : String :=
  "Error: No se encontró el archivo del modelo en " ++ path ++
    ". Asegúrate de que el archivo del modelo esté en el directorio correcto."

/-- The body of `load_model` (`main.py:18-25`), before the
`@st.cache_resource` decorator is applied: `try: joblib.load` with a handler
for `FileNotFoundError` only, which renders `st.error` and returns `None`.
Any other exception propagates out of the function. -/
def load_model (fs : FS) (path : String) : Except PyExc (Option Model × List UIEvent) :=
  match joblib_load fs path with
  | Except.ok m => Except.ok (some m, [])
  | Except.error (PyExc.fileNotFound _) => Except.ok (none, [UIEvent.uiError (notFoundMsg path)])
  | Except.error e => Except.error e

/-- Lookup in the `st.cache_resource` cache, keyed by the argument `path`. -/
def cacheFind (cache : List (String × Option Model)) (path : String) : Option (Option Model) :=
  match cache with
  | [] => none
  | (k, v) :: rest => if k = path then some v else cacheFind rest path

/-- `load_model` as decorated by `@st.cache_resource` (`main.py:17`): on a
cache hit the body is not executed (no filesystem access, no render calls)
and the cached handle is returned; on a miss the body runs and its returned
value — including `None` — is stored under the path.  A raised exception is
not cached.  The final `Bool` records whether the body executed on this
call. -/
def cached_load_model (fs : FS) (cache : List (String × Option Model)) (path : String) :
    Except PyExc ((Option Model × List UIEvent) × List (String × Option Model) × Bool) :=
  match cacheFind cache path with
  | some r => Except.ok ((r, []), cache, false)
  | none =>
    match load_model fs path with
    | Except.ok (r, ev) => Except.ok ((r, ev), (path, r) :: cache, true)
    | Except.error e => Except.error e

/-- One slider call's configuration arguments (`st.slider`). -/
structure SliderCfg where
  label : String
  min_value : ℚ
  max_value : ℚ
  value : ℚ
  step : ℚ
  deriving DecidableEq, Repr

/-- The iron-concentrate slider (`main.py:38-44`). -/
def iron_slider : SliderCfg :=
  { label := " ⛏️🪨Concentrado de hierro (%)"
    min_value := 62.05
    max_value := 68.01
    value := 65
    step := 0.1 }

/-- The air-flow slider (`main.py:49-55`). -/
def air_slider : SliderCfg :=
  { label := "🌬️🫧🌀Flujo de aire - Columna de flotación 01"
    min_value := 175.84734
    max_value := 372.44264
    value := 200
    step := 0.1 }

/-- The amine-flow slider (`main.py:59-65`). -/
def amina_slider : SliderCfg :=
  { label := "🧪💧⚙️Flujo de Amina"
    min_value := 241.70237
    max_value := 739.304
    value := 350
    step := 0.1 }

/-- `df_input` (`main.py:93-96`): the single-row DataFrame
`[[iron, air, amina]]` under the model's schema column names. -/
def df_input (iron air amina : ℚ) : DFrame :=
  { columns := ["% Iron Concentrate", "Flotation Column 01 Air Flow", "Amina Flow"]
    rows := [[iron, air, amina]] }

/-- Round `q` to an integer number of hundredths, ties to even, as Python's
`format(x, ".2f")` does on the exact value of `x`.  Computed on the
numerator and denominator with integer arithmetic: `q * 100 = n / d`,
`f = ⌊n / d⌋`, and the fractional remainder `rem / d` is compared with
`1 / 2` via `2 * rem` against `d`. -/
def rnd2 (q : ℚ) : ℤ :=
  let n : ℤ := q.num * 100
  let d : ℤ := (q.den : ℤ)
  let f : ℤ := Int.fdiv n d
  let rem : ℤ := n - f * d
  if 2 * rem < d then f
  else if d < 2 * rem then f + 1
  else if f % 2 = 0 then f else f + 1

/-- Print a hundredths count with two digits. -/
def natPad2 (n : Nat) : String :=
  if n < 10 then "0" ++ toString n else toString n

/-- Python's `f"{v:.2f}"` on the exact value `v`: the value rounded to two
decimal places, rendered with exactly two fractional digits. -/
def fmt2 (q : ℚ) : String :=
  let c : ℤ := rnd2 q
  let sign : String := if c < 0 then "-" else ""
  let a : Nat := c.natAbs
  sign ++ toString (a / 100) ++ "." ++ natPad2 (a % 100)

/-- `prediction_value[0]` on the model's output sequence: Python indexing,
which raises `IndexError` on an empty sequence. -/
def getFirst (l : List ℚ) : Except PyExc ℚ :=
  match l with
  | [] => Except.error (PyExc.exc "index 0 is out of bounds for axis 0 with size 0")
  | x :: _ => Except.ok x

/-- The `try`/`except` block at `main.py:99-106`, given the already-built
DataFrame: run `model.predict`; on success render the subheader, then format
`prediction_value[0]` into the success box, then the info box; any exception
raised inside the block (from `predict` or from the indexing) reaches the
`except Exception` handler, which renders `st.error` with the cause text.
Note the subheader is rendered before the indexing, so an `IndexError`
leaves the subheader already on screen. -/
def tryPredict (m : Model) (df : DFrame) : List UIEvent :=
  match m df with
  | Except.error e =>
      [UIEvent.uiError ("Ocurrió un error durante la predicción: " ++ excMsg e)]
  | Except.ok pv =>
    match getFirst pv with
    | Except.error e =>
        [UIEvent.subheader "📈 Resultado de la Predicción",
         UIEvent.uiError ("Ocurrió un error durante la predicción: " ++ excMsg e)]
    | Except.ok v =>
        [UIEvent.subheader "📈 Resultado de la Predicción",
         UIEvent.success ("**Concentrado Predicho:** `" ++ fmt2 v ++ "%`"),
         UIEvent.info "Este valor representa el porcentaje del concentrado de sílice estimado."]

/-- The in-Python constructor call `pd.DataFrame(...)` as the script actually
makes it.  `predict_flow` is parameterized over this call because in Python
any library call may raise; the real pandas constructor succeeds and returns
`df_input`. -/
def pandasOk : ℚ → ℚ → ℚ → Except PyExc DFrame :=
  fun iron air amina => Except.ok (df_input iron air amina)

/-- The prediction section of the script (`main.py:88-108`): if the model
handle is `None` the section renders only the warning and never reaches the
button or the predict call; otherwise, when the button was clicked, it
builds `df_input` (outside any `try`, so a constructor exception
propagates) and runs the `try`/`except` prediction block.  The `Bool`
records whether `model.predict` was reached. -/
def predict_flow (pdCtor : ℚ → ℚ → ℚ → Except PyExc DFrame)
    (model : Option Model) (clicked : Bool) (iron air amina : ℚ) :
    Except PyExc (List UIEvent × Bool) :=
  match model with
  | some m =>
      if clicked then
        match pdCtor iron air amina with
        | Except.error e => Except.error e
        | Except.ok df => Except.ok (tryPredict m df, true)
      else Except.ok ([], false)
  | none =>
      Except.ok
        ([UIEvent.warning "El modelo no pudo ser cargado. Por favor, verifica la ruta del archivo del modelo."],
         false)

/-- A stub model returning `2.5` (as the exact rational `mkRat 5 2`) for
every input (the stub of the spec's display scenario). -/
def stubModel : Model := fun _ => Except.ok [mkRat 5 2]

/-- A model whose `predict` returns an empty output sequence. -/
def emptyOutputModel : Model := fun _ => Except.ok []

end Flotacion

namespace Flotacion

/-- The claim C5/C7/C9 witnesses use this concrete filesystem: the file
exists at `modelo.joblib` and nowhere else. -/
def fsOneGood : FS :=
  fun p => if p = "modelo.joblib" then some (Artifact.good stubModel) else none

/-- C1: for every submit with slider values `iron, air, amina`, the one-row
input handed to `model.predict` is exactly `df_input iron air amina`, whose
row is the ordered triple `[iron, air, amina]` under the column labels
`["% Iron Concentrate", "Flotation Column 01 Air Flow", "Amina Flow"]`;
in particular at `65, 200, 350` the row is `[65, 200, 350]`. -/
theorem C1_feature_vector_order (m : Model) (iron air amina : ℚ) :
    predict_flow pandasOk (some m) true iron air amina =
      Except.ok (tryPredict m (df_input iron air amina), true) ∧
    (df_input iron air amina).columns =
      ["% Iron Concentrate", "Flotation Column 01 Air Flow", "Amina Flow"] ∧
    (df_input iron air amina).rows = [[iron, air, amina]] ∧
    (df_input 65 200 350).rows = [[(65 : ℚ), 200, 350]] :=
  ⟨rfl, rfl, rfl, rfl⟩

/-- C4: whenever the model handle is not a successfully-loaded model
(`model = None`), the section short-circuits: it renders the warning, never
reaches `model.predict` (flag `false`), and raises nothing (`Except.ok`),
for every constructor, click state and inputs. -/
theorem C4_no_model_short_circuit
    (pdCtor : ℚ → ℚ → ℚ → Except PyExc DFrame) (clicked : Bool) (iron air amina : ℚ) :
    predict_flow pdCtor none clicked iron air amina =
      Except.ok
        ([UIEvent.warning "El modelo no pudo ser cargado. Por favor, verifica la ruta del archivo del modelo."],
         false) :=
  rfl

/-- C8: the three sliders are configured with exactly the spec table's
ranges, defaults and step: iron 62.05–68.01 default 65 step 0.1; air
175.84734–372.44264 default 200 step 0.1; amine 241.70237–739.304 default
350 step 0.1. -/
theorem C8_slider_config :
    iron_slider.min_value = 62.05 ∧ iron_slider.max_value = 68.01 ∧
    iron_slider.value = 65 ∧ iron_slider.step = 0.1 ∧
    air_slider.min_value = 175.84734 ∧ air_slider.max_value = 372.44264 ∧
    air_slider.value = 200 ∧ air_slider.step = 0.1 ∧
    amina_slider.min_value = 241.70237 ∧ amina_slider.max_value = 739.304 ∧
    amina_slider.value = 350 ∧ amina_slider.step = 0.1 :=
  ⟨rfl, rfl, rfl, rfl, rfl, rfl, rfl, rfl, rfl, rfl, rfl, rfl⟩

/-- C10: extraction of `prediction_value[0]` (and the success rendering) sit
inside the same `try` as `model.predict`, so a model returning an empty
output sequence yields a caught `IndexError`: the section returns normally
(`Except.ok`, no escaping exception) and renders the prediction-error
message instead of crashing. -/
theorem C10_empty_output_caught (iron air amina : ℚ) :
    predict_flow pandasOk (some emptyOutputModel) true iron air amina =
      Except.ok
        ([UIEvent.subheader "📈 Resultado de la Predicción",
          UIEvent.uiError
            ("Ocurrió un error durante la predicción: index 0 is out of bounds for axis 0 with size 0")],
         true) :=
  rfl

/-- C2, counterexample: a path whose bytes fail to deserialize makes
`load_model` raise an uncaught exception (the `except` clause names only
`FileNotFoundError`), contradicting the claim that every deserialization
failure is returned as a distinct `LoadError` value instead of raising. -/
theorem C2_counterexample_corrupt_uncaught :
    load_model (fun _ => some (Artifact.corrupt "invalid load key")) "modelo.joblib" =
      Except.error (PyExc.exc "invalid load key") :=
  rfl

/-- C2, amended: `load_model` converts only a missing file into a handled
failure — it renders the not-found error message and returns `None`, a
single failure value rather than distinct `LoadError` kinds — while any
other deserialization failure propagates as an uncaught exception; a
well-formed artifact loads successfully. -/
theorem C2_load_error_amended (fs : FS) (path : String) :
    (fs path = none →
      load_model fs path = Except.ok (none, [UIEvent.uiError (notFoundMsg path)])) ∧
    (∀ msg, fs path = some (Artifact.corrupt msg) →
      load_model fs path = Except.error (PyExc.exc msg)) ∧
    (∀ m, fs path = some (Artifact.good m) →
      load_model fs path = Except.ok (some m, [])) := by
  refine ⟨fun h => ?_, fun msg h => ?_, fun m h => ?_⟩ <;>
    simp [load_model, joblib_load, h]

/-- C2, witness: the amended behavior at two concrete filesystems. -/
theorem C2_load_error_witness :
    load_model (fun _ => none) "modelo.joblib" =
      Except.ok (none, [UIEvent.uiError (notFoundMsg "modelo.joblib")]) ∧
    load_model (fun _ => some (Artifact.corrupt "bad bytes")) "modelo.joblib" =
      Except.error (PyExc.exc "bad bytes") :=
  ⟨(C2_load_error_amended (fun _ => none) "modelo.joblib").1 rfl,
   (C2_load_error_amended (fun _ => some (Artifact.corrupt "bad bytes")) "modelo.joblib").2.1
     "bad bytes" rfl⟩

/-- C3, counterexample: `df_input` is built at `main.py:93-96`, before the
`try` block opens at line 99, so an exception raised by the constructor call
escapes the predict boundary uncaught (no error message is rendered),
contradicting the claim that construction exceptions are converted into a
`PredictError`. -/
theorem C3_counterexample_ctor_exception_escapes :
    predict_flow (fun _ _ _ => Except.error (PyExc.exc "constructor failed"))
      (some stubModel) true 65 200 350 =
      Except.error (PyExc.exc "constructor failed") :=
  rfl

/-- C3, amended: an exception raised by the inference call is caught and
rendered as an error message whose text appends the underlying cause to
"Ocurrió un error durante la predicción: " (so the cause text is contained
in the user-visible message), and no exception escapes from inside the
`try` block; but an exception raised during feature-vector construction
propagates uncaught. -/
theorem C3_predict_error_amended (m : Model) (iron air amina : ℚ) :
    (∀ e : PyExc,
      predict_flow (fun _ _ _ => Except.error e) (some m) true iron air amina =
        Except.error e) ∧
    (∀ msg : String, m (df_input iron air amina) = Except.error (PyExc.exc msg) →
      predict_flow pandasOk (some m) true iron air amina =
        Except.ok
          ([UIEvent.uiError ("Ocurrió un error durante la predicción: " ++ msg)], true)) := by
  refine ⟨fun e => rfl, fun msg h => ?_⟩
  simp [predict_flow, pandasOk, tryPredict, h, excMsg]

/-- C3, witness: a concrete model whose inference raises is rendered as a
caught prediction-error message carrying the cause text. -/
theorem C3_predict_error_witness :
    predict_flow pandasOk (some (fun _ => Except.error (PyExc.exc "boom"))) true 65 200 350 =
      Except.ok
        ([UIEvent.uiError ("Ocurrió un error durante la predicción: " ++ "boom")], true) :=
  (C3_predict_error_amended (fun _ => Except.error (PyExc.exc "boom")) 65 200 350).2 "boom" rfl

/-- C5: with a fresh cache entry and a valid artifact at `path`, the first
`load_model` call executes the body (flag `true`) and caches the handle;
a second call with the same path returns the very same cached handle with
the body not executed (flag `false`), i.e. no filesystem access. -/
theorem C5_cache_single_load (fs : FS) (cache : List (String × Option Model))
    (path : String) (m : Model)
    (hfresh : cacheFind cache path = none) (hfs : fs path = some (Artifact.good m)) :
    cached_load_model fs cache path =
      Except.ok ((some m, []), (path, some m) :: cache, true) ∧
    cached_load_model fs ((path, some m) :: cache) path =
      Except.ok ((some m, []), (path, some m) :: cache, false) := by
  constructor
  · simp [cached_load_model, hfresh, load_model, joblib_load, hfs]
  · simp [cached_load_model, cacheFind]

/-- C5, witness: the double-load behavior at a concrete filesystem, path and
model. -/
theorem C5_cache_witness :
    cached_load_model fsOneGood [] "modelo.joblib" =
      Except.ok ((some stubModel, []), [("modelo.joblib", some stubModel)], true) ∧
    cached_load_model fsOneGood [("modelo.joblib", some stubModel)] "modelo.joblib" =
      Except.ok ((some stubModel, []), [("modelo.joblib", some stubModel)], false) :=
  C5_cache_single_load fsOneGood [] "modelo.joblib" stubModel rfl rfl

/-- C6: with the stub model returning 2.5 for every input and inputs
65.0, 200.0, 350.0, the value extracted from the model output is exactly
2.5 — unrounded — and only the rendered success box formats it to two
decimal places, displaying the result as "2.50%". -/
theorem C6_display_two_decimals :
    mkRat 5 2 = (2.5 : ℚ) ∧
    stubModel (df_input 65 200 350) = Except.ok [mkRat 5 2] ∧
    getFirst [mkRat 5 2] = Except.ok (mkRat 5 2) ∧
    fmt2 (mkRat 5 2) = "2.50" ∧
    predict_flow pandasOk (some stubModel) true 65 200 350 =
      Except.ok
        ([UIEvent.subheader "📈 Resultado de la Predicción",
          UIEvent.success "**Concentrado Predicho:** `2.50%`",
          UIEvent.info "Este valor representa el porcentaje del concentrado de sílice estimado."],
         true) := by
  refine ⟨by norm_num [Rat.mkRat_eq_div], rfl, rfl, by decide, ?_⟩
  simp only [predict_flow, pandasOk, tryPredict, stubModel, getFirst,
    show fmt2 (mkRat 5 2) = "2.50" from by decide]
  rfl

/-- C7: a load of a missing path returns the `None` handle with the
not-found error message rendered — no exception escapes — and the failure
is cached only under that path, so a subsequent load of a different, valid
path still executes and succeeds. -/
theorem C7_notfound_no_poison (fs : FS) (p1 p2 : String) (m : Model)
    (hne : p1 ≠ p2) (h1 : fs p1 = none) (h2 : fs p2 = some (Artifact.good m)) :
    cached_load_model fs [] p1 =
      Except.ok ((none, [UIEvent.uiError (notFoundMsg p1)]), [(p1, none)], true) ∧
    cached_load_model fs [(p1, none)] p2 =
      Except.ok ((some m, []), [(p2, some m), (p1, none)], true) := by
  constructor
  · simp [cached_load_model, cacheFind, load_model, joblib_load, h1]
  · simp [cached_load_model, cacheFind, hne, load_model, joblib_load, h2]

/-- C7, witness: a missing path followed by the valid path on the concrete
one-file filesystem. -/
theorem C7_notfound_witness :
    cached_load_model fsOneGood [] "missing.joblib" =
      Except.ok
        ((none, [UIEvent.uiError (notFoundMsg "missing.joblib")]),
         [("missing.joblib", none)], true) ∧
    cached_load_model fsOneGood [("missing.joblib", none)] "modelo.joblib" =
      Except.ok
        ((some stubModel, []),
         [("modelo.joblib", some stubModel), ("missing.joblib", none)], true) :=
  C7_notfound_no_poison fsOneGood "missing.joblib" "modelo.joblib" stubModel
    (by decide) rfl rfl

/-- C9: once a failed load is cached for a path (the cache maps the path to
the `None` handle), every later call with that path returns the cached
`None` without executing the body — independent of the current filesystem,
so placing the file afterwards cannot recover without a process restart. -/
theorem C9_failure_cached_forever (fs : FS) (cache : List (String × Option Model))
    (path : String) (h : cacheFind cache path = some none) :
    cached_load_model fs cache path = Except.ok ((none, []), cache, false) := by
  simp [cached_load_model, h]

/-- C9, witness: the file now exists at the path, yet the cached failure is
returned and the loader body does not run. -/
theorem C9_failure_cached_witness :
    cached_load_model (fun _ => some (Artifact.good stubModel))
      [("modelo.joblib", none)] "modelo.joblib" =
      Except.ok ((none, []), [("modelo.joblib", (none : Option Model))], false) :=
  C9_failure_cached_forever (fun _ => some (Artifact.good stubModel))
    [("modelo.joblib", none)] "modelo.joblib" rfl

end Flotacion
